import Mathlib

/-!
Verification model of the go-id3 MP3 tag parser.

The Go source is shallowly embedded: the byte stream is a `List Nat` of byte
values consumed from the front, machine `int32` arithmetic is modelled with
`Nat` accumulators reduced `% 2^32` and reinterpreted as signed via `toInt32`,
and fallible Go code (returned `error`s as well as runtime panics) is modelled
by the `PResult` outcome type, which keeps returned errors (`fail`) distinct
from process-aborting panics (`aborted`).
-/

/-- Outcome of a Go operation: a value, a returned `error`, or a runtime panic. -/
inductive PResult (α : Type) where
  | ok (a : α)
  | fail (msg : String)
  | aborted (msg : String)
  deriving Repr, DecidableEq

/-- Interpret a natural number as a Go `int32`: reduce modulo `2^32` and view
the top bit as the sign bit. -/
def toInt32 (n : Nat) : Int :=
  if n % 2 ^ 32 < 2 ^ 31 then Int.ofNat (n % 2 ^ 32)
  else Int.ofNat (n % 2 ^ 32) - 2 ^ 32

/-- Model of `readBytes(reader, c)` from `id3/util.go`: one `Read` call into a
buffer of length `c`.  A negative `c` makes `make([]byte, c)` panic; if fewer
than `c` bytes remain the single read drains the stream and the short read is
reported as an error.  Returns the outcome paired with the remaining stream. -/
def readBytesI (c : Int) (s : List Nat) : PResult (List Nat) × List Nat :=
  if c < 0 then (PResult.aborted "makeslice: len out of range", s)
  else if s.length < c.toNat then (PResult.fail "short read", [])
  else (PResult.ok (s.take c.toNat), s.drop c.toNat)

/-- Model of `skipBytes(reader, c)` from `id3/util.go`: reads and discards `c`
bytes in chunks; if the stream ends first the read error is passed to `panic`.
A non-positive `c` skips the loop entirely. -/
def skipBytesI (c : Int) (s : List Nat) : PResult Unit × List Nat :=
  if c ≤ 0 then (PResult.ok (), s)
  else if s.length < c.toNat then (PResult.aborted "skipBytes: read past end of stream", [])
  else (PResult.ok (), s.drop c.toNat)

/-- Accumulator loop of `parseID3v2Size` (`id3/id3v22.go` and the same function
in the copy under `unnamed/part_001`): for byte `i` of `n`, OR in
`int32(b&0x7f) << (7*(n-i-1))`.  The element's shift distance `7*(n-i-1)`
equals seven times the number of bytes after it, and each shifted term is a
32-bit machine value, hence the `% 2^32`. -/
def parseID3v2SizeAux : List Nat → Nat → Nat
  | [], size => size
  | b :: rest, size =>
      parseID3v2SizeAux rest (size ||| ((b &&& 0x7f) <<< (7 * rest.length)) % 2 ^ 32)

/-- `parseID3v2Size(data)`: sync-safe size decoding, 7 data bits per byte, most
significant byte first, the top bit of every byte masked away.  Result is a Go
`int32`. -/
def parseID3v2Size (data : List Nat) : Int :=
  toInt32 (parseID3v2SizeAux data 0)

/-- Spec §4.4: the 4-byte sync-safe encoding of an integer `k < 2^28`, 7 bits
per byte, most significant byte first, top bit of every byte zero.  (The
repository only decodes; the encoder is the one the spec's round-trip property
quantifies over.) -/
def syncSafeEncode (k : Nat) : List Nat :=
  [k >>> 21 &&& 0x7f, k >>> 14 &&& 0x7f, k >>> 7 &&& 0x7f, k &&& 0x7f]

/-- `parseID3v22FrameSize(reader)` from `id3/id3v2.go`: read 3 bytes, compose
`int(size[0])<<16 | int(size[1])<<8 | int(size[2])`. -/
def parseID3v22FrameSize (s : List Nat) : PResult Int × List Nat :=
  match readBytesI 3 s with
  | (PResult.ok b, s') =>
      (PResult.ok (Int.ofNat ((b.getD 0 0) <<< 16 ||| (b.getD 1 0) <<< 8 ||| b.getD 2 0)), s')
  | (PResult.fail e, s') => (PResult.fail e, s')
  | (PResult.aborted e, s') => (PResult.aborted e, s')

/-- Big-endian 32-bit composition of the first four bytes, as a Go `int32`. -/
def be32 (b : List Nat) : Int :=
  toInt32 ((b.getD 0 0) <<< 24 ||| (b.getD 1 0) <<< 16 ||| (b.getD 2 0) <<< 8 ||| b.getD 3 0)

/-- `parseID3v23FrameSize(reader)` from `id3/id3v2.go`: `binary.Read` of a
big-endian `int32`.  The error returned by `binary.Read` is discarded by the
source, so a short read leaves `size` at its zero value and the function
returns `(0, nil)`. -/
def parseID3v23FrameSize (s : List Nat) : PResult Int × List Nat :=
  if s.length < 4 then (PResult.ok 0, [])
  else (PResult.ok (be32 (s.take 4)), s.drop 4)

/-- `parseID3v24FrameSize(reader)` from `id3/id3v2.go`: read 4 bytes and decode
them sync-safe. -/
def parseID3v24FrameSize (s : List Nat) : PResult Int × List Nat :=
  match readBytesI 4 s with
  | (PResult.ok b, s') => (PResult.ok (parseID3v2Size b), s')
  | (PResult.fail e, s') => (PResult.fail e, s')
  | (PResult.aborted e, s') => (PResult.aborted e, s')

/-- `ISO8859_1ToUTF8(data)` from `id3/util.go`: each input byte becomes the
rune of the same numeric value. -/
def ISO8859_1ToUTF8 (data : List Nat) : String :=
  String.mk (data.map Char.ofNat)

/-- Conversion loop of `toUTF16`: group an even-length byte list into 16-bit
code units `uint16(b0)<<shift0 | uint16(b1)<<shift1`. -/
def utf16Units (shift0 shift1 : Nat) : List Nat → List Nat
  | b0 :: b1 :: rest =>
      ((b0 % 2 ^ 16) <<< shift0 % 2 ^ 16 ||| (b1 % 2 ^ 16) <<< shift1 % 2 ^ 16)
        :: utf16Units shift0 shift1 rest
  | _ => []

/-- Model of Go `unicode/utf16.Decode`: surrogate pairs combine, unpaired
surrogates become U+FFFD, everything else passes through. -/
def utf16Decode : List Nat → List Char
  | [] => []
  | u :: rest =>
    if u < 0xD800 ∨ 0xE000 ≤ u then Char.ofNat u :: utf16Decode rest
    else if u < 0xDC00 then
      match rest with
      | u2 :: rest2 =>
        if 0xDC00 ≤ u2 ∧ u2 < 0xE000 then
          Char.ofNat (0x10000 + ((u - 0xD800) <<< 10 ||| (u2 - 0xDC00))) :: utf16Decode rest2
        else Char.ofNat 0xFFFD :: utf16Decode (u2 :: rest2)
      | [] => [Char.ofNat 0xFFFD]
    else Char.ofNat 0xFFFD :: utf16Decode rest

/-- Whether a byte is a UTF-8 continuation byte. -/
def utf8Cont (b : Nat) : Bool := 0x80 ≤ b ∧ b < 0xC0

/-- Model of Go `string([]byte)` rune iteration (`unicode/utf8` decoding):
well-formed sequences decode to their code point, any malformed leading byte
yields U+FFFD and consumes one byte. -/
def utf8Decode : List Nat → List Char
  | [] => []
  | b :: rest =>
    if b < 0x80 then Char.ofNat b :: utf8Decode rest
    else if 0xC2 ≤ b ∧ b ≤ 0xDF then
      match rest with
      | c1 :: r2 =>
        if utf8Cont c1 then Char.ofNat ((b - 0xC0) <<< 6 ||| (c1 - 0x80)) :: utf8Decode r2
        else Char.ofNat 0xFFFD :: utf8Decode (c1 :: r2)
      | [] => [Char.ofNat 0xFFFD]
    else if 0xE0 ≤ b ∧ b ≤ 0xEF then
      match rest with
      | c1 :: c2 :: r3 =>
        if ((b = 0xE0 ∧ 0xA0 ≤ c1 ∧ c1 ≤ 0xBF) ∨
            (0xE1 ≤ b ∧ b ≤ 0xEC ∧ utf8Cont c1) ∨
            (b = 0xED ∧ 0x80 ≤ c1 ∧ c1 ≤ 0x9F) ∨
            (0xEE ≤ b ∧ utf8Cont c1)) ∧ utf8Cont c2 then
          Char.ofNat ((b - 0xE0) <<< 12 ||| (c1 - 0x80) <<< 6 ||| (c2 - 0x80))
            :: utf8Decode r3
        else Char.ofNat 0xFFFD :: utf8Decode (c1 :: c2 :: r3)
      | [c1] => Char.ofNat 0xFFFD :: utf8Decode [c1]
      | [] => [Char.ofNat 0xFFFD]
    else if 0xF0 ≤ b ∧ b ≤ 0xF4 then
      match rest with
      | c1 :: c2 :: c3 :: r4 =>
        if ((b = 0xF0 ∧ 0x90 ≤ c1 ∧ c1 ≤ 0xBF) ∨
            (0xF1 ≤ b ∧ b ≤ 0xF3 ∧ utf8Cont c1) ∨
            (b = 0xF4 ∧ 0x80 ≤ c1 ∧ c1 ≤ 0x8F)) ∧ utf8Cont c2 ∧ utf8Cont c3 then
          Char.ofNat ((b - 0xF0) <<< 18 ||| (c1 - 0x80) <<< 12 ||| (c2 - 0x80) <<< 6
              ||| (c3 - 0x80)) :: utf8Decode r4
        else Char.ofNat 0xFFFD :: utf8Decode (c1 :: c2 :: c3 :: r4)
      | [c1, c2] => Char.ofNat 0xFFFD :: utf8Decode [c1, c2]
      | [c1] => Char.ofNat 0xFFFD :: utf8Decode [c1]
      | [] => [Char.ofNat 0xFFFD]
    else Char.ofNat 0xFFFD :: utf8Decode rest

/-- `strings.TrimRight(s, "\u0000")`: strip trailing NUL characters. -/
def trimNulRight (s : String) : String :=
  String.mk ((s.toList.reverse.dropWhile (fun c => c = Char.ofNat 0)).reverse)

/-- Padding step of `toUTF16`: an odd-length input gets one zero byte
appended before grouping into 16-bit units. -/
def padEven (data : List Nat) : List Nat :=
  if data.length % 2 > 0 then data ++ [0] else data

/-- `toUTF16(data)` from `id3/util.go` (the older revision of the text
decoder): panics when the input is too short to hold a BOM, zero-pads an
odd-length input, accepts a little-endian BOM, and panics both on a big-endian
BOM and on an unrecognized BOM. -/
def toUTF16Old (data : List Nat) : PResult (List Nat) :=
  if data.length < 2 then
    PResult.aborted "Sequence is too short too contain a UTF-16 BOM"
  else if (padEven data).getD 0 0 = 0xFF ∧ (padEven data).getD 1 0 = 0xFE then
    PResult.ok (utf16Units 0 8 ((padEven data).drop 2))
  else if (padEven data).getD 0 0 = 0xFE ∧ (padEven data).getD 1 0 = 0xFF then
    PResult.aborted "UTF-16 BE found!"
  else PResult.aborted "Unrecognized UTF-16 BOM"

/-- Modelled from the spec: the `([]uint16, error)` returning `toUTF16` called
by `parseID3v2String` in `id3/id3v22.go` is not under `src/` (only the older
panicking revision in `id3/util.go` is).  Per spec §4.2: a body of fewer than
2 bytes yields no code units (so the decoded string is empty) rather than
failing; an odd trailing byte is zero-padded before grouping; `FF FE` selects
little-endian and `FE FF` big-endian code-unit order; any other leading pair
fails with an unrecognized-encoding error. -/
def toUTF16 (data : List Nat) : PResult (List Nat) :=
  if data.length < 2 then PResult.ok []
  else if (padEven data).getD 0 0 = 0xFF ∧ (padEven data).getD 1 0 = 0xFE then
    PResult.ok (utf16Units 0 8 ((padEven data).drop 2))
  else if (padEven data).getD 0 0 = 0xFE ∧ (padEven data).getD 1 0 = 0xFF then
    PResult.ok (utf16Units 8 0 ((padEven data).drop 2))
  else PResult.fail "Unrecognized UTF-16 BOM"

/-- `parseID3v2String(data)` from `unnamed/part_001` (older revision): selector
byte 0 is codepage text, 1 is UTF-16 with BOM (panicking `toUTF16Old`), 2
panics as unsupported, 3 is UTF-8, any other selector treats the whole body as
codepage text.  Trailing NULs are trimmed from a successful decode.  Indexing
`data[0]` on an empty body is a runtime panic. -/
def parseID3v2StringOld (data : List Nat) : PResult String :=
  match data with
  | [] => PResult.aborted "index out of range"
  | b :: rest =>
    match (match b with
      | 0 => PResult.ok (ISO8859_1ToUTF8 rest)
      | 1 =>
        match toUTF16Old rest with
        | PResult.ok utf => PResult.ok (String.mk (utf16Decode utf))
        | PResult.fail e => PResult.fail e
        | PResult.aborted e => PResult.aborted e
      | 2 => PResult.aborted "Unsupported text encoding UTF-16BE."
      | 3 => PResult.ok (String.mk (utf8Decode rest))
      | _ => PResult.ok (ISO8859_1ToUTF8 (b :: rest))) with
    | PResult.ok s => PResult.ok (trimNulRight s)
    | PResult.fail e => PResult.fail e
    | PResult.aborted e => PResult.aborted e

/-- `parseID3v2String(data)` from `id3/id3v22.go` (current revision, returning
`(string, error)`): like the older revision, but selector 1 propagates the
error of the `(units, error)` `toUTF16` and selector 2 returns the error
`Unsupported text encoding UTF-16BE.` instead of panicking.  Indexing
`data[0]` on an empty body is still a runtime panic. -/
def parseID3v2String (data : List Nat) : PResult String :=
  match data with
  | [] => PResult.aborted "index out of range"
  | b :: rest =>
    match (match b with
      | 0 => PResult.ok (ISO8859_1ToUTF8 rest)
      | 1 =>
        match toUTF16 rest with
        | PResult.ok utf => PResult.ok (String.mk (utf16Decode utf))
        | PResult.fail e => PResult.fail e
        | PResult.aborted e => PResult.aborted e
      | 2 => PResult.fail "Unsupported text encoding UTF-16BE."
      | 3 => PResult.ok (String.mk (utf8Decode rest))
      | _ => PResult.ok (ISO8859_1ToUTF8 (b :: rest))) with
    | PResult.ok s => PResult.ok (trimNulRight s)
    | PResult.fail e => PResult.fail e
    | PResult.aborted e => PResult.aborted e

/-- Whether a character is an ASCII decimal digit. -/
def isDigitCh (c : Char) : Bool := 48 ≤ c.toNat ∧ c.toNat ≤ 57

/-- Value of a non-empty all-digit character list, base 10. -/
def digitsVal (l : List Char) : Option Nat :=
  if l ≠ [] ∧ l.all isDigitCh then
    some (l.foldl (fun acc c => acc * 10 + (c.toNat - 48)) 0)
  else none

/-- Model of Go `strconv.Atoi(s)`: an optional sign followed by one or more
digits, the whole string consumed; anything else is an error.  (Atoi also
range-checks against the machine int, which none of the inputs here reach.) -/
def atoi (s : String) : Option Int :=
  match s.toList with
  | [] => none
  | c :: cs =>
    if c = '+' then (digitsVal cs).map Int.ofNat
    else if c = '-' then (digitsVal cs).map (fun n => -(Int.ofNat n))
    else (digitsVal (c :: cs)).map Int.ofNat

/-- Model of Go `fmt.Sscanf(s, "(%d)", &index)` as used by
`convertID3v1Genre`: a literal `(`, then a decimal integer (the `%d` verb
skips leading spaces and accepts an optional sign), then a literal `)`;
anything after the `)` is ignored.  On any mismatch the scan errors. -/
def sscanfParenInt (s : String) : Option Int :=
  match s.toList with
  | '(' :: rest =>
    let rest1 := rest.dropWhile (fun c => c = ' ')
    let signed : Bool × List Char :=
      match rest1 with
      | '-' :: ds => (true, ds)
      | '+' :: ds => (false, ds)
      | ds => (false, ds)
    let ds := signed.2.takeWhile isDigitCh
    if ds = [] then none
    else
      match signed.2.dropWhile isDigitCh with
      | ')' :: _ =>
        let v := Int.ofNat (ds.foldl (fun acc c => acc * 10 + (c.toNat - 48)) 0)
        some (if signed.1 then -v else v)
      | _ => none
  | _ => none

/-- Modelled from the spec: the process-wide genre table `id3v1Genres`
referenced by `convertID3v1Genre` and `parseID3v1File` is not under `src/`.
Per §3 it is the fixed, ordered legacy genre list indexed by the numeric
genre code; this is that standard list (indices 0 through 147). -/
def id3v1Genres : List String :=
  ["Blues", "Classic Rock", "Country", "Dance", "Disco", "Funk", "Grunge",
   "Hip-Hop", "Jazz", "Metal", "New Age", "Oldies", "Other", "Pop", "R&B",
   "Rap", "Reggae", "Rock", "Techno", "Industrial", "Alternative", "Ska",
   "Death Metal", "Pranks", "Soundtrack", "Euro-Techno", "Ambient",
   "Trip-Hop", "Vocal", "Jazz+Funk", "Fusion", "Trance", "Classical",
   "Instrumental", "Acid", "House", "Game", "Sound Clip", "Gospel", "Noise",
   "AlternRock", "Bass", "Soul", "Punk", "Space", "Meditative",
   "Instrumental Pop", "Instrumental Rock", "Ethnic", "Gothic", "Darkwave",
   "Techno-Industrial", "Electronic", "Pop-Folk", "Eurodance", "Dream",
   "Southern Rock", "Comedy", "Cult", "Gangsta", "Top 40", "Christian Rap",
   "Pop/Funk", "Jungle", "Native American", "Cabaret", "New Wave",
   "Psychadelic", "Rave", "Showtunes", "Trailer", "Lo-Fi", "Tribal",
   "Acid Punk", "Acid Jazz", "Polka", "Retro", "Musical", "Rock & Roll",
   "Hard Rock", "Folk", "Folk-Rock", "National Folk", "Swing", "Fast Fusion",
   "Bebob", "Latin", "Revival", "Celtic", "Bluegrass", "Avantgarde",
   "Gothic Rock", "Progressive Rock", "Psychedelic Rock", "Symphonic Rock",
   "Slow Rock", "Big Band", "Chorus", "Easy Listening", "Acoustic", "Humour",
   "Speech", "Chanson", "Opera", "Chamber Music", "Sonata", "Symphony",
   "Booty Bass", "Primus", "Porn Groove", "Satire", "Slow Jam", "Club",
   "Tango", "Samba", "Folklore", "Ballad", "Power Ballad", "Rhythmic Soul",
   "Freestyle", "Duet", "Punk Rock", "Drum Solo", "A capella", "Euro-House",
   "Dance Hall", "Goa", "Drum & Bass", "Club-House", "Hardcore", "Terror",
   "Indie", "BritPop", "Negerpunk", "Polsk Punk", "Beat",
   "Christian Gangsta Rap", "Heavy Metal", "Black Metal", "Crossover",
   "Contemporary Christian", "Christian Rock", "Merengue", "Salsa",
   "Thrash Metal", "Anime", "JPop", "Synthpop"]

/-- Go `strings.HasPrefix(s, p)`. -/
def goHasPrefix (s p : String) : Bool :=
  p.toList.isPrefixOf s.toList

/-- `convertID3v1Genre(genre)` from `id3/id3v22.go`: `RX`/`(RX)` is Remix,
`CR`/`(CR)` is Cover; a bare integer or a `(N)`-with-trailing-text integer is
looked up in the genre table when `0 <= N < len`, out-of-range codes give
`Unknown`; anything else is returned unchanged. -/
def convertID3v1Genre (genre : String) : String :=
  if genre = "RX" ∨ goHasPrefix genre "(RX)" then "Remix"
  else if genre = "CR" ∨ goHasPrefix genre "(CR)" then "Cover"
  else
    match atoi genre with
    | some index =>
      if 0 ≤ index ∧ index < Int.ofNat id3v1Genres.length then
        id3v1Genres.getD index.toNat ""
      else "Unknown"
    | none =>
      match sscanfParenInt genre with
      | some index =>
        if 0 ≤ index ∧ index < Int.ofNat id3v1Genres.length then
          id3v1Genres.getD index.toNat ""
        else "Unknown"
      | none => genre

/-- Genre step of `parseID3v1File` from `id3/id3v1.go`: with `b` the final
genre byte, `if int(data[0]) > len(id3v1Genres)` assign `Unspecified`, else
index the table — an index equal to the table length passes the check and the
lookup `id3v1Genres[b]` is then a runtime panic. -/
def id3v1GenreField (b : Nat) : PResult String :=
  if b > id3v1Genres.length then PResult.ok "Unspecified"
  else
    match id3v1Genres.get? b with
    | some g => PResult.ok g
    | none => PResult.aborted "runtime error: index out of range"

/-- `readID3v2String(reader, c)` from `unnamed/part_001`: read `c` body bytes
and decode them.  On a read error the source returns the empty string with no
error (marked by a `FIXME: return an error` comment); a decode panic
propagates. -/
def readID3v2String (c : Int) (s : List Nat) : PResult String × List Nat :=
  match readBytesI c s with
  | (PResult.fail _, s') => (PResult.ok "", s')
  | (PResult.aborted e, s') => (PResult.aborted e, s')
  | (PResult.ok b, s') =>
    match parseID3v2StringOld b with
    | PResult.ok str => (PResult.ok str, s')
    | PResult.fail e => (PResult.fail e, s')
    | PResult.aborted e => (PResult.aborted e, s')

/-- `readID3v2Genre(reader, c)` from `unnamed/part_001`: like
`readID3v2String` but the decoded text goes through the genre resolver. -/
def readID3v2Genre (c : Int) (s : List Nat) : PResult String × List Nat :=
  match readBytesI c s with
  | (PResult.fail _, s') => (PResult.ok "", s')
  | (PResult.aborted e, s') => (PResult.aborted e, s')
  | (PResult.ok b, s') =>
    match parseID3v2StringOld b with
    | PResult.ok str => (PResult.ok (convertID3v1Genre str), s')
    | PResult.fail e => (PResult.fail e, s')
    | PResult.aborted e => (PResult.aborted e, s')

/-- The output record populated by `parseID3v2File` (`SimpleTags` in the
source, one string field per allowlisted tag). -/
structure SimpleTags where
  name : String := ""
  artist : String := ""
  album : String := ""
  year : String := ""
  track : String := ""
  disc : String := ""
  genre : String := ""
  tagLength : String := ""
  deriving Repr, DecidableEq

/-- The all-empty record `new(SimpleTags)`. -/
def emptyTags : SimpleTags := {}

/-- `ID3v22Tags` from `id3/id3v2.go`: the v2.2 identifier-to-field table. -/
def ID3v22Tags : List (String × String) :=
  [("TAL", "album"), ("TRK", "track"), ("TP1", "artist"), ("TT2", "name"),
   ("TYE", "year"), ("TPA", "disc"), ("TCO", "genre")]

/-- `ID3v23Tags` from `id3/id3v2.go`: the v2.3 identifier-to-field table. -/
def ID3v23Tags : List (String × String) :=
  [("TALB", "album"), ("TRCK", "track"), ("TPE1", "artist"), ("TIT2", "name"),
   ("TYER", "year"), ("TPOS", "disc"), ("TCON", "genre"), ("TLEN", "length")]

/-- `ID3v24Tags` from `id3/id3v2.go`: the v2.4 identifier-to-field table. -/
def ID3v24Tags : List (String × String) :=
  [("TALB", "album"), ("TRCK", "track"), ("TPE1", "artist"), ("TIT2", "name"),
   ("TDRC", "year"), ("TPOS", "disc"), ("TCON", "genre"), ("TLEN", "length")]

/-- Identifier width selected by `parseID3v2File`: 3 for version 2, else 4. -/
def tagLen : Nat → Nat
  | 2 => 3
  | _ => 4

/-- Identifier table selected by `parseID3v2File` for the version. -/
def versionTagMap : Nat → List (String × String)
  | 2 => ID3v22Tags
  | 3 => ID3v23Tags
  | _ => ID3v24Tags

/-- Frame-size parser selected by `parseID3v2File` for the version. -/
def versionParseSize : Nat → List Nat → PResult Int × List Nat
  | 2 => parseID3v22FrameSize
  | 3 => parseID3v23FrameSize
  | _ => parseID3v24FrameSize

/-- Go `string(b)` on a byte slice (UTF-8 interpretation). -/
def goString (bs : List Nat) : String := String.mk (utf8Decode bs)

/-- `hasID3v2Frame(reader, frameSize)` from `unnamed/part_001`: peek
`frameSize` bytes (failing the peek counts as no frame) and require every
byte to be an ASCII capital letter or digit. -/
def hasID3v2Frame (s : List Nat) (frameSize : Nat) : Bool :=
  if s.length < frameSize then false
  else (s.take frameSize).all fun c => !((c < 65 || c > 90) && (c < 48 || c > 57))

/-- Lift a body read into the record assignment of one `switch` case of
`parseID3v2File`. -/
def withRead (r : PResult String × List Nat) (f : String → SimpleTags) :
    PResult (SimpleTags × List Nat) :=
  match r with
  | (PResult.ok x, s) => PResult.ok (f x, s)
  | (PResult.fail e, _) => PResult.fail e
  | (PResult.aborted e, _) => PResult.aborted e

/-- One iteration of the frame loop of `parseID3v2File` (`unnamed/part_001`):
read the identifier (wrapping a read error), read the version-specific size,
discard 2 flag bytes for versions 3 and 4, skip `size` bytes when the
identifier is not in the table, and otherwise decode the body into the field
the table names (`id` is the empty string when the lookup misses, which falls
through the `switch`). -/
def parseFrameStep (v : Nat) (tags : SimpleTags) (s : List Nat) :
    PResult (SimpleTags × List Nat) :=
  match readBytesI (tagLen v : Int) s with
  | (PResult.fail e, _) => PResult.fail ("parseID3v2File: " ++ e)
  | (PResult.aborted e, _) => PResult.aborted e
  | (PResult.ok idB, s1) =>
    match versionParseSize v s1 with
    | (PResult.fail e, _) => PResult.fail e
    | (PResult.aborted e, _) => PResult.aborted e
    | (PResult.ok size, s2) =>
      match (if v = 3 ∨ v = 4 then skipBytesI 2 s2 else (PResult.ok (), s2)) with
      | (PResult.aborted e, _) => PResult.aborted e
      | (PResult.fail e, _) => PResult.fail e
      | (PResult.ok _, s3) =>
        let idOpt := (versionTagMap v).lookup (goString idB)
        match (if idOpt.isNone then skipBytesI size s3 else (PResult.ok (), s3)) with
        | (PResult.aborted e, _) => PResult.aborted e
        | (PResult.fail e, _) => PResult.fail e
        | (PResult.ok _, s4) =>
          match idOpt.getD "" with
          | "album" => withRead (readID3v2String size s4) fun x => { tags with album := x }
          | "track" => withRead (readID3v2String size s4) fun x => { tags with track := x }
          | "artist" => withRead (readID3v2String size s4) fun x => { tags with artist := x }
          | "name" => withRead (readID3v2String size s4) fun x => { tags with name := x }
          | "year" => withRead (readID3v2String size s4) fun x => { tags with year := x }
          | "disc" => withRead (readID3v2String size s4) fun x => { tags with disc := x }
          | "genre" => withRead (readID3v2Genre size s4) fun x => { tags with genre := x }
          | "length" => withRead (readID3v2String size s4) fun x => { tags with tagLength := x }
          | _ => PResult.ok (tags, s4)

/-- The assignment performed by the `switch` of `parseID3v2File` for a given
field name: known field names overwrite that field, any other name leaves the
record unchanged. -/
def setTagsField (tags : SimpleTags) (fld : String) (x : String) : SimpleTags :=
  match fld with
  | "album" => { tags with album := x }
  | "track" => { tags with track := x }
  | "artist" => { tags with artist := x }
  | "name" => { tags with name := x }
  | "year" => { tags with year := x }
  | "disc" => { tags with disc := x }
  | "genre" => { tags with genre := x }
  | "length" => { tags with tagLength := x }
  | _ => tags

/-- The frame loop of `parseID3v2File` (`unnamed/part_001`): while the
lookahead sees a valid frame, run one iteration; when the lookahead fails,
return the record built so far.  The loop always terminates because every
iteration consumes at least the identifier bytes, so any `fuel` of at least
the stream length suffices; running out of fuel is marked distinctly. -/
def parseFrames (v : Nat) : Nat → SimpleTags → List Nat → PResult SimpleTags
  | 0, _, _ => PResult.aborted "out of fuel"
  | fuel + 1, tags, s =>
    if hasID3v2Frame s (tagLen v) then
      match parseFrameStep v tags s with
      | PResult.ok (tags', s') => parseFrames v fuel tags' s'
      | PResult.fail e => PResult.fail e
      | PResult.aborted e => PResult.aborted e
    else PResult.ok tags

set_option maxRecDepth 16384

/-- C6: for every text-frame body whose encoding selector byte is 2
(big-endian UTF-16 without BOM), `parseID3v2String` returns the typed
recoverable failure `Unsupported text encoding UTF-16BE.` to the caller — it
never decodes the body and never panics. -/
theorem c6_selector2_recoverable (rest : List Nat) :
    parseID3v2String (2 :: rest) = PResult.fail "Unsupported text encoding UTF-16BE." := by
  rfl

/-- C8 (code divergence): the claim says an empty frame body and a selector-1
body with fewer than two following bytes both decode to the empty string
without failing or aborting.  The short selector-1 body does decode to the
empty string in the current revision, but an empty body makes both revisions
of `parseID3v2String` index `data[0]` out of range — a runtime panic — and
the older `toUTF16` in `id3/util.go` also panics on the short selector-1
body. -/
theorem c8_empty_body_panics :
    parseID3v2String [] = PResult.aborted "index out of range"
    ∧ parseID3v2StringOld [] = PResult.aborted "index out of range"
    ∧ parseID3v2String [1] = PResult.ok ""
    ∧ parseID3v2String [1, 255] = PResult.ok ""
    ∧ parseID3v2StringOld [1, 65]
        = PResult.aborted "Sequence is too short too contain a UTF-16 BOM" := by
  refine ⟨rfl, rfl, by decide, by decide, by decide⟩

/-- C2 (code divergence): the claim says every read failure in frame
iteration surfaces as the parse's error.  In the source, `readID3v2String`
swallows the short-read error from `readBytes` and returns the empty string
with no error, `parseID3v23FrameSize` discards the error of `binary.Read`
and returns size 0 with no error, and `skipBytes` panics on a read failure
instead of returning it.  Each conjunct exhibits one of those on a truncated
stream, next to the error the underlying cursor operation reported. -/
theorem c2_read_failures_not_surfaced :
    readBytesI 10 [1, 65] = (PResult.fail "short read", [])
    ∧ readID3v2String 10 [1, 65] = (PResult.ok "", [])
    ∧ parseID3v23FrameSize [1, 2] = (PResult.ok 0, [])
    ∧ (skipBytesI 5 [1, 2]).1 = PResult.aborted "skipBytes: read past end of stream" := by
  refine ⟨by decide, by decide, by decide, by decide⟩

/-- C10 (code divergence): the claim says the ID3v1 genre bounds check keeps
the lookup index strictly below the table length for every byte value.  The
source checks `int(data[0]) > len(id3v1Genres)`, so the byte value equal to
the table length (148) passes the check and the lookup panics; neighbouring
byte values behave as the claim describes. -/
theorem c10_id3v1_genre_off_by_one :
    id3v1Genres.length = 148
    ∧ (148 > id3v1Genres.length) = False
    ∧ id3v1GenreField 148 = PResult.aborted "runtime error: index out of range"
    ∧ id3v1GenreField 147 = PResult.ok "Synthpop"
    ∧ id3v1GenreField 149 = PResult.ok "Unspecified" := by
  refine ⟨by decide, by decide, by decide, by decide, by decide⟩

/-- C9 (counterexample): the version-3 frame-size parser is not non-negative
on every 4-byte input — a first byte with the top bit set makes the plain
big-endian `int32` negative, here `80 00 00 00` decoding to `-2^31`. -/
theorem c9_counterexample_negative_size :
    parseID3v23FrameSize [128, 0, 0, 0] = (PResult.ok (-2147483648), [])
    ∧ ((-2147483648 : Int) < 0) := by
  refine ⟨by decide, by decide⟩

/-- C3: genre resolution order and results of `convertID3v1Genre`: `RX`-forms
give `Remix` and `CR`-forms give `Cover` before any numeric parse; a string
that entirely parses as an integer `N` gives the table entry at `N` under the
`0 <= N < len` check and `Unknown` outside it; a `(N)`-with-trailing-text
string resolves like the bare integer with the same bounds check; any other
string is returned unchanged.  The particulars the claim names are included
for the modelled 148-entry table. -/
theorem c3_genre_resolution (s : String) :
    ((s = "RX" ∨ goHasPrefix s "(RX)" = true) → convertID3v1Genre s = "Remix")
    ∧ (¬(s = "RX" ∨ goHasPrefix s "(RX)" = true) →
        (s = "CR" ∨ goHasPrefix s "(CR)" = true) → convertID3v1Genre s = "Cover")
    ∧ (¬(s = "RX" ∨ goHasPrefix s "(RX)" = true) →
        ¬(s = "CR" ∨ goHasPrefix s "(CR)" = true) →
        (∀ n : Int, atoi s = some n →
          convertID3v1Genre s =
            if 0 ≤ n ∧ n < Int.ofNat id3v1Genres.length then id3v1Genres.getD n.toNat ""
            else "Unknown")
        ∧ (atoi s = none → ∀ n : Int, sscanfParenInt s = some n →
            convertID3v1Genre s =
              if 0 ≤ n ∧ n < Int.ofNat id3v1Genres.length then id3v1Genres.getD n.toNat ""
              else "Unknown")
        ∧ (atoi s = none → sscanfParenInt s = none → convertID3v1Genre s = s))
    ∧ convertID3v1Genre "5" = id3v1Genres.getD 5 ""
    ∧ convertID3v1Genre "999" = "Unknown"
    ∧ convertID3v1Genre "(5) extra text" = convertID3v1Genre "5"
    ∧ convertID3v1Genre "Speed Metal" = "Speed Metal" := by
  refine ⟨?_, ?_, ?_, by decide, by decide, by decide, by decide⟩
  · intro h
    unfold convertID3v1Genre
    rw [if_pos h]
  · intro hrx hcr
    unfold convertID3v1Genre
    rw [if_neg hrx, if_pos hcr]
  · intro hrx hcr
    refine ⟨?_, ?_, ?_⟩
    · intro n hn
      unfold convertID3v1Genre
      rw [if_neg hrx, if_neg hcr, hn]
    · intro ha n hn
      unfold convertID3v1Genre
      rw [if_neg hrx, if_neg hcr, ha, hn]
    · intro ha hp
      unfold convertID3v1Genre
      rw [if_neg hrx, if_neg hcr, ha, hp]

/-- C3 witness: the theorem applied at the concrete inputs `(RX) remix of 5`
and `7`. -/
theorem c3_genre_resolution_witness :
    convertID3v1Genre "(RX) remix of 5" = "Remix"
    ∧ convertID3v1Genre "7" =
        (if 0 ≤ (7 : Int) ∧ (7 : Int) < Int.ofNat id3v1Genres.length
         then id3v1Genres.getD (7 : Int).toNat "" else "Unknown") :=
  ⟨(c3_genre_resolution "(RX) remix of 5").1 (Or.inr (by decide)),
   ((c3_genre_resolution "7").2.2.1 (by decide) (by decide)).1 7 (by decide)⟩

theorem testBit_127 (i : Nat) : Nat.testBit 127 i = decide (i < 7) := by
  rw [show (127 : Nat) = 2 ^ 7 - 1 from rfl, Nat.testBit_two_pow_sub_one]

theorem maskShift_lt (b sh : Nat) (h : sh ≤ 21) : (b &&& 127) <<< sh < 2 ^ 28 := by
  have h1 : b &&& 127 ≤ 127 := Nat.and_le_right
  rw [Nat.shiftLeft_eq]
  calc (b &&& 127) * 2 ^ sh ≤ 127 * 2 ^ 21 :=
        Nat.mul_le_mul h1 (Nat.pow_le_pow_right (by norm_num) h)
    _ < 2 ^ 28 := by norm_num

theorem parseID3v2SizeAux_four (b0 b1 b2 b3 : Nat) :
    parseID3v2SizeAux [b0, b1, b2, b3] 0
      = (b0 &&& 127) <<< 21 ||| (b1 &&& 127) <<< 14 ||| (b2 &&& 127) <<< 7 ||| (b3 &&& 127) := by
  simp only [parseID3v2SizeAux, List.length_cons, List.length_nil]
  norm_num
  rw [Nat.mod_eq_of_lt (lt_trans (maskShift_lt b0 21 (by norm_num)) (by norm_num)),
      Nat.mod_eq_of_lt (lt_trans (maskShift_lt b1 14 (by norm_num)) (by norm_num)),
      Nat.mod_eq_of_lt (lt_trans (maskShift_lt b2 7 (by norm_num)) (by norm_num)),
      Nat.mod_eq_of_lt (lt_of_le_of_lt (Nat.and_le_right (n := b3) (m := 127)) (by norm_num))]

theorem parseID3v2SizeAux_four_lt (b0 b1 b2 b3 : Nat) :
    parseID3v2SizeAux [b0, b1, b2, b3] 0 < 2 ^ 28 := by
  rw [parseID3v2SizeAux_four]
  exact Nat.or_lt_two_pow
    (Nat.or_lt_two_pow
      (Nat.or_lt_two_pow (maskShift_lt b0 21 (by norm_num)) (maskShift_lt b1 14 (by norm_num)))
      (maskShift_lt b2 7 (by norm_num)))
    (maskShift_lt b3 0 (by norm_num))

theorem testBit_window (k sh j : Nat) :
    Nat.testBit ((k >>> sh &&& 127) <<< sh) j
      = (decide (sh ≤ j) && decide (j < sh + 7) && Nat.testBit k j) := by
  simp only [Nat.testBit_shiftLeft, Nat.testBit_and, Nat.testBit_shiftRight, testBit_127]
  by_cases h : sh ≤ j
  · have hj : sh + (j - sh) = j := by omega
    by_cases h2 : j - sh < 7
    · simp [h, hj, h2, show j < sh + 7 by omega, Bool.and_comm]
    · simp [h, hj, h2, show ¬(j < sh + 7) by omega]
  · simp [h, show ¬(j ≥ sh) from h]

theorem and127_and127 (x : Nat) : (x &&& 127) &&& 127 = x &&& 127 := by
  rw [Nat.and_assoc, show (127 : Nat) &&& 127 = 127 from by decide]

theorem syncSafeRoundNat (k : Nat) (hk : k < 2 ^ 28) :
    (k >>> 21 &&& 127) <<< 21 ||| (k >>> 14 &&& 127) <<< 14 ||| (k >>> 7 &&& 127) <<< 7
      ||| (k &&& 127) = k := by
  apply Nat.eq_of_testBit_eq
  intro j
  have w0 : Nat.testBit (k &&& 127) j
      = (decide (0 ≤ j) && decide (j < 0 + 7) && Nat.testBit k j) := by
    have h := testBit_window k 0 j
    simpa using h
  simp only [Nat.testBit_or, testBit_window, w0]
  cases hkj : Nat.testBit k j with
  | false => simp
  | true =>
    have hj : j < 28 := by
      by_contra hge
      have hkj2 : k < 2 ^ j :=
        lt_of_lt_of_le hk (Nat.pow_le_pow_right (by norm_num) (by omega))
      rw [Nat.testBit_lt_two_pow hkj2] at hkj
      exact Bool.false_ne_true hkj
    simp only [Bool.and_true, Bool.or_eq_true, Bool.and_eq_true, decide_eq_true_eq]
    omega

/-- C4: sync-safe size decoding is a left inverse of sync-safe encoding — for
every `k < 2^28` decoding the 4-byte encoding returns `k`; and on every
4-byte input the decoder only masks the top bit of each byte away (the result
equals the result on the masked bytes) and is never negative. -/
theorem c4_syncsafe_roundtrip :
    (∀ k : Nat, k < 2 ^ 28 → parseID3v2Size (syncSafeEncode k) = Int.ofNat k)
    ∧ (∀ b0 b1 b2 b3 : Nat,
        parseID3v2Size [b0, b1, b2, b3]
          = parseID3v2Size [b0 &&& 0x7f, b1 &&& 0x7f, b2 &&& 0x7f, b3 &&& 0x7f]
        ∧ 0 ≤ parseID3v2Size [b0, b1, b2, b3]) := by
  constructor
  · intro k hk
    unfold parseID3v2Size syncSafeEncode
    rw [parseID3v2SizeAux_four, and127_and127, and127_and127, and127_and127, and127_and127,
        syncSafeRoundNat k hk]
    unfold toInt32
    rw [Nat.mod_eq_of_lt (lt_trans hk (by norm_num))]
    rw [if_pos (lt_trans hk (by norm_num))]
  · intro b0 b1 b2 b3
    constructor
    · unfold parseID3v2Size
      rw [parseID3v2SizeAux_four, parseID3v2SizeAux_four,
          and127_and127, and127_and127, and127_and127, and127_and127]
    · unfold parseID3v2Size toInt32
      have h := parseID3v2SizeAux_four_lt b0 b1 b2 b3
      rw [Nat.mod_eq_of_lt (lt_trans h (by norm_num))]
      rw [if_pos (lt_trans h (by norm_num))]
      exact Int.ofNat_nonneg _

/-- C4 witness: the round-trip at `k = 1234567` (whose encoding has bytes
`[0x00, 0x4B, 0x5A, 0x07]`) and the top-bit-masking equality at an input with
every top bit set. -/
theorem c4_syncsafe_roundtrip_witness :
    parseID3v2Size (syncSafeEncode 1234567) = Int.ofNat 1234567
    ∧ parseID3v2Size [0x81, 0x80, 0xFF, 0x87]
        = parseID3v2Size [0x81 &&& 0x7f, 0x80 &&& 0x7f, 0xFF &&& 0x7f, 0x87 &&& 0x7f] :=
  ⟨c4_syncsafe_roundtrip.1 1234567 (by norm_num),
   (c4_syncsafe_roundtrip.2 0x81 0x80 0xFF 0x87).1⟩

theorem padEven_cons₂ (b0 b1 : Nat) (t : List Nat) :
    padEven (b0 :: b1 :: t) = b0 :: b1 :: padEven t := by
  unfold padEven
  simp only [List.length_cons]
  have h : (t.length + 1 + 1) % 2 = t.length % 2 := by omega
  simp only [h]
  by_cases hp : t.length % 2 > 0
  · rw [if_pos hp, if_pos hp]
    simp
  · rw [if_neg hp, if_neg hp]

theorem padEven_odd (t : List Nat) (h : t.length % 2 = 1) :
    padEven t = t ++ [0] ∧ padEven (t ++ [0]) = t ++ [0] := by
  constructor
  · unfold padEven
    rw [if_pos (by omega)]
  · unfold padEven
    rw [if_neg (by simp [List.length_append]; omega)]

theorem toUTF16_cons (b0 b1 : Nat) (t : List Nat) :
    toUTF16 (b0 :: b1 :: t) =
      if b0 = 0xFF ∧ b1 = 0xFE then PResult.ok (utf16Units 0 8 (padEven t))
      else if b0 = 0xFE ∧ b1 = 0xFF then PResult.ok (utf16Units 8 0 (padEven t))
      else PResult.fail "Unrecognized UTF-16 BOM" := by
  unfold toUTF16
  rw [if_neg (by simp only [List.length_cons]; omega), padEven_cons₂]
  simp only [List.getD_cons_zero, List.getD_cons_succ, List.drop_succ_cons, List.drop_zero]

theorem parseID3v2String_selector1 (r : List Nat) :
    parseID3v2String (1 :: r) =
      (match toUTF16 r with
       | PResult.ok utf => PResult.ok (trimNulRight (String.mk (utf16Decode utf)))
       | PResult.fail e => PResult.fail e
       | PResult.aborted e => PResult.aborted e) := by
  cases h : toUTF16 r <;> simp [parseID3v2String, h]

/-- C5: for a selector-1 body with at least two following bytes, a `FF FE`
pair decodes as little-endian UTF-16 and a `FE FF` pair as big-endian
UTF-16, both returning a string; decoding fails with the
unrecognized-encoding error exactly when the two bytes match neither
byte-order mark; and an odd trailing byte is zero-padded before grouping
into 16-bit code units. -/
theorem c5_utf16_bom_dispatch (b0 b1 : Nat) (tail : List Nat) :
    ((b0 = 0xFF ∧ b1 = 0xFE) → ∃ s, parseID3v2String (1 :: b0 :: b1 :: tail) = PResult.ok s)
    ∧ ((b0 = 0xFE ∧ b1 = 0xFF) → ∃ s, parseID3v2String (1 :: b0 :: b1 :: tail) = PResult.ok s)
    ∧ (parseID3v2String (1 :: b0 :: b1 :: tail) = PResult.fail "Unrecognized UTF-16 BOM"
        ↔ ¬(b0 = 0xFF ∧ b1 = 0xFE) ∧ ¬(b0 = 0xFE ∧ b1 = 0xFF))
    ∧ (tail.length % 2 = 1 →
        toUTF16 (b0 :: b1 :: tail) = toUTF16 (b0 :: b1 :: (tail ++ [0]))) := by
  refine ⟨?_, ?_, ?_, ?_⟩
  · intro hle
    rw [parseID3v2String_selector1, toUTF16_cons, if_pos hle]
    exact ⟨_, rfl⟩
  · intro hbe
    obtain ⟨hb0, hb1⟩ := hbe
    have hne : ¬(b0 = 0xFF ∧ b1 = 0xFE) := by
      rintro ⟨h1, _⟩
      omega
    rw [parseID3v2String_selector1, toUTF16_cons, if_neg hne, if_pos ⟨hb0, hb1⟩]
    exact ⟨_, rfl⟩
  · rw [parseID3v2String_selector1, toUTF16_cons]
    by_cases hle : b0 = 0xFF ∧ b1 = 0xFE
    · rw [if_pos hle]
      constructor
      · intro h
        exact absurd h (by simp)
      · rintro ⟨h1, _⟩
        exact absurd hle h1
    · rw [if_neg hle]
      by_cases hbe : b0 = 0xFE ∧ b1 = 0xFF
      · rw [if_pos hbe]
        constructor
        · intro h
          exact absurd h (by simp)
        · rintro ⟨_, h2⟩
          exact absurd hbe h2
      · rw [if_neg hbe]
        exact ⟨fun _ => ⟨hle, hbe⟩, fun _ => rfl⟩
  · intro hodd
    rw [toUTF16_cons, toUTF16_cons, (padEven_odd tail hodd).1, (padEven_odd tail hodd).2]

/-- C5 witness: the theorem applied to a little-endian body, a big-endian
body, and a body with no valid byte-order mark. -/
theorem c5_utf16_bom_dispatch_witness :
    (∃ s, parseID3v2String [1, 0xFF, 0xFE, 65, 0] = PResult.ok s)
    ∧ (∃ s, parseID3v2String [1, 0xFE, 0xFF, 0, 65] = PResult.ok s)
    ∧ parseID3v2String [1, 65, 66] = PResult.fail "Unrecognized UTF-16 BOM" :=
  ⟨(c5_utf16_bom_dispatch 0xFF 0xFE [65, 0]).1 ⟨rfl, rfl⟩,
   (c5_utf16_bom_dispatch 0xFE 0xFF [0, 65]).2.1 ⟨rfl, rfl⟩,
   (c5_utf16_bom_dispatch 65 66 []).2.2.1.mpr (by decide)⟩

theorem take_all_eq_false (p : Nat → Bool) :
    ∀ (s : List Nat) (n i : Nat), i < n → i < s.length → p (s.getD i 0) = false →
      (s.take n).all p = false := by
  intro s
  induction s with
  | nil =>
    intro n i h1 h2 hp
    simp at h2
  | cons a t ih =>
    intro n i h1 h2 hp
    cases n with
    | zero => omega
    | succ m =>
      cases i with
      | zero =>
        simp only [List.getD_cons_zero] at hp
        simp [List.take_succ_cons, hp]
      | succ j =>
        simp only [List.getD_cons_succ] at hp
        have hr := ih m j (by omega) (by simpa using h2) hp
        simp [List.take_succ_cons, hr]

theorem hasID3v2Frame_eq_false (s : List Nat) (n : Nat)
    (h : s.length < n ∨ ∃ i, i < n ∧ i < s.length ∧
        ((s.getD i 0 < 65 ∨ s.getD i 0 > 90) ∧ (s.getD i 0 < 48 ∨ s.getD i 0 > 57))) :
    hasID3v2Frame s n = false := by
  unfold hasID3v2Frame
  by_cases hlen : s.length < n
  · rw [if_pos hlen]
  · rw [if_neg hlen]
    rcases h with h | ⟨i, hin, hil, hbad⟩
    · exact absurd h hlen
    · refine take_all_eq_false _ s n i hin hil ?_
      simp only [Bool.not_eq_false', Bool.and_eq_true, Bool.or_eq_true, decide_eq_true_eq]
      exact hbad

/-- C7: if at a frame boundary fewer than `tagLen` identifier bytes remain, or
any of the next `tagLen` bytes is outside `A`-`Z` and `0`-`9`, frame
iteration returns successfully and the record accumulated so far is returned
unchanged, for every version and every accumulated record. -/
theorem c7_invalid_identifier_terminates (v : Nat) (tags : SimpleTags) (s : List Nat)
    (fuel : Nat)
    (h : s.length < tagLen v ∨ ∃ i, i < tagLen v ∧ i < s.length ∧
        ((s.getD i 0 < 65 ∨ s.getD i 0 > 90) ∧ (s.getD i 0 < 48 ∨ s.getD i 0 > 57))) :
    parseFrames v (fuel + 1) tags s = PResult.ok tags := by
  have hf := hasID3v2Frame_eq_false s (tagLen v) h
  unfold parseFrames
  simp [hf]

/-- C7 witness: a version-2 stream whose next identifier byte is a lowercase
letter terminates with the already-populated record. -/
theorem c7_invalid_identifier_terminates_witness :
    parseFrames 2 1 { emptyTags with artist := "Prior" } [97, 65, 66]
      = PResult.ok { emptyTags with artist := "Prior" } :=
  c7_invalid_identifier_terminates 2 { emptyTags with artist := "Prior" } [97, 65, 66] 0
    (Or.inr ⟨0, by decide, by norm_num, by norm_num⟩)

/-- C9 (amended): on a 4-byte input whose first byte has a clear top bit (and
bytes in range), the version-3 frame-size parser result is the non-negative
`int32` below `2^31`; the counterexample shows the unamended claim fails when
the top bit is set. -/
theorem c9_nonneg_when_top_bit_clear (b0 b1 b2 b3 : Nat)
    (h0 : b0 ≤ 127) (h1 : b1 ≤ 255) (h2 : b2 ≤ 255) (h3 : b3 ≤ 255) :
    ∃ k : Int, parseID3v23FrameSize [b0, b1, b2, b3] = (PResult.ok k, [])
      ∧ 0 ≤ k ∧ k < 2 ^ 31 := by
  have e0 : b0 <<< 24 < 2 ^ 31 := by
    rw [Nat.shiftLeft_eq]
    calc b0 * 2 ^ 24 ≤ 127 * 2 ^ 24 := Nat.mul_le_mul_right _ h0
      _ < 2 ^ 31 := by norm_num
  have e1 : b1 <<< 16 < 2 ^ 31 := by
    rw [Nat.shiftLeft_eq]
    calc b1 * 2 ^ 16 ≤ 255 * 2 ^ 16 := Nat.mul_le_mul_right _ h1
      _ < 2 ^ 31 := by norm_num
  have e2 : b2 <<< 8 < 2 ^ 31 := by
    rw [Nat.shiftLeft_eq]
    calc b2 * 2 ^ 8 ≤ 255 * 2 ^ 8 := Nat.mul_le_mul_right _ h2
      _ < 2 ^ 31 := by norm_num
  have e3 : b3 < 2 ^ 31 := by omega
  have hE : (b0 <<< 24 ||| b1 <<< 16 ||| b2 <<< 8 ||| b3) < 2 ^ 31 :=
    Nat.or_lt_two_pow (Nat.or_lt_two_pow (Nat.or_lt_two_pow e0 e1) e2) e3
  refine ⟨toInt32 (b0 <<< 24 ||| b1 <<< 16 ||| b2 <<< 8 ||| b3), ?_, ?_, ?_⟩
  · rfl
  · unfold toInt32
    rw [Nat.mod_eq_of_lt (lt_trans hE (by norm_num)), if_pos hE]
    exact Int.ofNat_nonneg _
  · unfold toInt32
    rw [Nat.mod_eq_of_lt (lt_trans hE (by norm_num)), if_pos hE]
    exact lt_of_lt_of_eq (Int.ofNat_lt.mpr hE) (by norm_num)

/-- C9 witness for the amended claim: applied at the bytes `00 FF 01 02`. -/
theorem c9_nonneg_when_top_bit_clear_witness :
    ∃ k : Int, parseID3v23FrameSize [0, 255, 1, 2] = (PResult.ok k, [])
      ∧ 0 ≤ k ∧ k < 2 ^ 31 :=
  c9_nonneg_when_top_bit_clear 0 255 1 2 (by norm_num) (by norm_num) (by norm_num)
    (by norm_num)

theorem lookup_mem_values {α β : Type} [BEq α] [LawfulBEq α] {l : List (α × β)} {k : α}
    {w : β} (h : l.lookup k = some w) : w ∈ l.map Prod.snd := by
  obtain ⟨l₁, l₂, rfl, -⟩ := List.lookup_eq_some_iff.mp h
  simp


/-- C1: one iteration of frame iteration, for every supported version.  After
the identifier is read, the size parsed, and (for versions 3 and 4) the two
flag bytes discarded: if the identifier is in the version's table the body is
decoded and assigned to the matching output field — through the genre
resolver exactly for the genre field — overwriting any prior value of that
field; if it is not in the table exactly `size` body bytes are skipped and no
field changes.  In both cases the iteration ends with the cursor at
`s3.drop size.toNat`, the start of the next frame. -/
theorem c1_frame_dispatch (v : Nat) (hv : v = 2 ∨ v = 3 ∨ v = 4)
    (tags : SimpleTags) (s s1 s2 s3 idB : List Nat) (size : Int)
    (hid : readBytesI (tagLen v : Int) s = (PResult.ok idB, s1))
    (hsz : versionParseSize v s1 = (PResult.ok size, s2))
    (hfl : (if v = 3 ∨ v = 4 then skipBytesI 2 s2 else (PResult.ok (), s2))
      = (PResult.ok (), s3))
    (hnn : 0 ≤ size) (hlen : size.toNat ≤ s3.length) :
    (∀ fld, (versionTagMap v).lookup (goString idB) = some fld →
      ∀ val, parseID3v2StringOld (s3.take size.toNat) = PResult.ok val →
        parseFrameStep v tags s =
          PResult.ok
            (setTagsField tags fld (if fld = "genre" then convertID3v1Genre val else val),
             s3.drop size.toNat))
    ∧ ((versionTagMap v).lookup (goString idB) = none →
        parseFrameStep v tags s = PResult.ok (tags, s3.drop size.toNat)) := by
  have hread : readBytesI size s3 = (PResult.ok (s3.take size.toNat), s3.drop size.toNat) := by
    unfold readBytesI
    rw [if_neg (by omega), if_neg (by omega)]
  have hskip : skipBytesI size s3 = (PResult.ok (), s3.drop size.toNat) := by
    unfold skipBytesI
    by_cases hz : size ≤ 0
    · have hz0 : size = 0 := le_antisymm hz hnn
      subst hz0
      simp
    · rw [if_neg hz, if_neg (by omega)]
  constructor
  · intro fld hfld val hval
    have hmem := lookup_mem_values hfld
    rcases hv with rfl | rfl | rfl
    · have hs : s2 = s3 := by simpa using hfl
      subst hs
      simp only [versionTagMap, ID3v22Tags, List.map_cons, List.map_nil, List.mem_cons,
        List.not_mem_nil, or_false] at hmem
      rcases hmem with rfl | rfl | rfl | rfl | rfl | rfl | rfl <;>
        simp [parseFrameStep, hid, hsz, hfld, readID3v2String, readID3v2Genre, hread, hval,
          withRead, setTagsField]
    · have hfl3 : skipBytesI 2 s2 = (PResult.ok (), s3) := by simpa using hfl
      simp only [versionTagMap, ID3v23Tags, List.map_cons, List.map_nil, List.mem_cons,
        List.not_mem_nil, or_false] at hmem
      rcases hmem with rfl | rfl | rfl | rfl | rfl | rfl | rfl | rfl <;>
        simp [parseFrameStep, hid, hsz, hfl3, hfld, readID3v2String, readID3v2Genre, hread,
          hval, withRead, setTagsField]
    · have hfl4 : skipBytesI 2 s2 = (PResult.ok (), s3) := by simpa using hfl
      simp only [versionTagMap, ID3v24Tags, List.map_cons, List.map_nil, List.mem_cons,
        List.not_mem_nil, or_false] at hmem
      rcases hmem with rfl | rfl | rfl | rfl | rfl | rfl | rfl | rfl <;>
        simp [parseFrameStep, hid, hsz, hfl4, hfld, readID3v2String, readID3v2Genre, hread,
          hval, withRead, setTagsField]
  · intro hnone
    rcases hv with rfl | rfl | rfl
    · have hs : s2 = s3 := by simpa using hfl
      subst hs
      simp [parseFrameStep, hid, hsz, hnone, hskip]
    · have hfl3 : skipBytesI 2 s2 = (PResult.ok (), s3) := by simpa using hfl
      simp [parseFrameStep, hid, hsz, hfl3, hnone, hskip]
    · have hfl4 : skipBytesI 2 s2 = (PResult.ok (), s3) := by simpa using hfl
      simp [parseFrameStep, hid, hsz, hfl4, hnone, hskip]

/-- C1 witness: one version-2 iteration on the frame `TAL`, size 1, body
`[0]` assigns the decoded (empty) album string and leaves the cursor at the
end of the frame. -/
theorem c1_frame_dispatch_witness :
    parseFrameStep 2 emptyTags [84, 65, 76, 0, 0, 1, 0]
      = PResult.ok ({ emptyTags with album := "" }, []) :=
  (c1_frame_dispatch 2 (Or.inl rfl) emptyTags [84, 65, 76, 0, 0, 1, 0] [0, 0, 1, 0] [0] [0]
      [84, 65, 76] 1 (by decide) (by decide) (by decide) (by decide) (by decide)).1
    "album" (by decide) "" (by decide)
